import Mathlib

/-!
Shallow embedding of `src/rolling_shutter.cpp` (Rolling-Shutter-Flash).

The program is a single-file real-time trigger loop: it waits for a rising
edge on an input GPIO line (XVS), busy-waits a fixed dead time, fires an
output line (LED) high for a fixed flash duration, lowers it, and repeats
until a SIGINT handler clears a `running` flag.  All durations are
nanosecond `long long` constants; we embed them as `Int`.
-/

namespace RollingShutter

/-! ### Timing constants (lines 38-63 of the source) -/

def T1_VERTICAL_BLANKING_NS : Int := 284200

def T2_ROLL_UP_TIME_NS : Int := 10579100

def TOTAL_EXPOSURE_TIME_NS : Int := 15000000

/-- T3: the "Magic Window": `T3 = T-exp - T2` (source line 49). -/
def T3_MAGIC_WINDOW_NS : Int := TOTAL_EXPOSURE_TIME_NS - T2_ROLL_UP_TIME_NS

def FLASH_DURATION_NS : Int := 50000

/-- The compile-time safety check of source lines 58-59:
`static_assert(FLASH_DURATION_NS < T3_MAGIC_WINDOW_NS, ...)`. -/
def staticAssertCheck : Bool := FLASH_DURATION_NS < T3_MAGIC_WINDOW_NS

/-- Dead time after XVS before firing: `T1 + T2` (source line 63). -/
def TRIGGER_WAIT_NS : Int := T1_VERTICAL_BLANKING_NS + T2_ROLL_UP_TIME_NS

def SIGINT : Int := 2

/-! ### TimingProfile (the spec's name for the constant block)

The source computes `T3 = T-exp - T2` and `TRIGGER = T1 + T2` and checks
`FT < T3` before anything else runs (a `static_assert`).  We embed the
computation generically over the four input durations, with the check
exactly as the source writes it. -/

inductive StartupError where
  | ConfigurationError
  | PortUnavailableError
deriving DecidableEq, Repr

structure TimingProfile where
  blankingTime : Int
  rollUpTime : Int
  totalExposureTime : Int
  pulseDuration : Int
  windowDuration : Int
  triggerDelay : Int
deriving DecidableEq, Repr

/-- Construct the timing profile from the four input durations, using the
source's formulas (`T3 = T-exp - T2`, `TRIGGER = T1 + T2`) and the
source's check (`FT < T3`, the `static_assert`).  Failure is the
configuration error of the spec; it happens before any hardware model. -/
def mkTimingProfile (blanking rollUp totalExposure pulse : Int) :
    Except StartupError TimingProfile :=
  let window := totalExposure - rollUp
  if pulse < window then
    Except.ok
      { blankingTime := blanking
        rollUpTime := rollUp
        totalExposureTime := totalExposure
        pulseDuration := pulse
        windowDuration := window
        triggerDelay := blanking + rollUp }
  else
    Except.error StartupError.ConfigurationError

/-! ### The spin wait (source lines 137-138)

`while (now() - xvs_time < TRIGGER_WAIT_NS) {}` polls a monotonic clock and
exits the first time `now - t0 >= delay`.  We model the clock as a sequence
of successive reads `clock : Nat → Int`; the loop exits at the first poll
index whose read satisfies the condition. -/

def spinDone (clock : Nat → Int) (t0 delay : Int) (n : Nat) : Prop :=
  delay ≤ clock n - t0

instance (clock : Nat → Int) (t0 delay : Int) :
    DecidablePred (spinDone clock t0 delay) := fun n =>
  inferInstanceAs (Decidable (delay ≤ clock n - t0))

/-- Index of the clock read at which the busy-wait loop exits: the first
poll where `now - t0 ≥ delay`. -/
def spinWaitExit (clock : Nat → Int) (t0 delay : Int)
    (h : ∃ n, spinDone clock t0 delay n) : Nat :=
  Nat.find h

/-- The clock value when the busy-wait exits; the `set_value(1)` call on the
output line follows immediately, so this is the output-high instant. -/
def outputHighTime (clock : Nat → Int) (t0 delay : Int)
    (h : ∃ n, spinDone clock t0 delay n) : Int :=
  clock (spinWaitExit clock t0 delay h)

/-! ### The trigger loop (source lines 124-150) as a trace semantics

Each iteration of `while (running)` first reads the `running` flag; if it
is set, `event_wait(500ms)` either times out (no action on the output) or
reports an edge, in which case the body performs, in order:
`event_read` (drain), timestamp capture, the spin wait, `set_value(1)`,
`sleep_for(FLASH_DURATION_NS)`, `set_value(0)`.

The environment supplies, per iteration, the observed `running` value, the
`event_wait` outcome (with the captured timestamp `t0` on an edge) and the
clock value at which the spin wait exits. -/

inductive Action where
  | eventWait (edgeObserved : Bool)
  | eventRead
  | captureTime (t0 : Int)
  | spinUntil (tHigh : Int)
  | setValue (v : Int)
  | sleepFor (ns : Int)
deriving DecidableEq, Repr

structure IterInput where
  /-- `none`: `event_wait` timed out; `some t0`: edge observed, timestamp `t0`. -/
  edge : Option Int
  /-- Clock value at which the spin wait exits (environment/clock dependent). -/
  tHigh : Int
deriving DecidableEq, Repr

structure LoopInput where
  /-- Value of the `running` flag read at the top of this iteration. -/
  running : Bool
  iter : IterInput
deriving DecidableEq, Repr

/-- The actions of one iteration body, after the `running` check
(source lines 126-149). -/
def cycleActions (inp : IterInput) : List Action :=
  match inp.edge with
  | none => [Action.eventWait false]
  | some t0 =>
      [Action.eventWait true, Action.eventRead, Action.captureTime t0,
       Action.spinUntil inp.tHigh, Action.setValue 1,
       Action.sleepFor FLASH_DURATION_NS, Action.setValue 0]

/-- The `while (running)` loop: each iteration reads `running` first and
exits immediately when it is false; otherwise it runs the body and
continues. -/
def runLoop : List LoopInput → List Action
  | [] => []
  | i :: rest => if i.running then cycleActions i.iter ++ runLoop rest else []

/-- Number of iterations that actually process an edge (the loop stops at
the first iteration whose `running` read is false). -/
def processedEdges : List LoopInput → Nat
  | [] => 0
  | i :: rest =>
      if i.running then
        (match i.iter.edge with | some _ => 1 | none => 0) + processedEdges rest
      else 0

def isSetValue (v : Int) (a : Action) : Bool :=
  match a with
  | Action.setValue w => w == v
  | _ => false

/-- Output level after a list of actions, starting from level `lvl`
(only `set_value` changes the level). -/
def levelAfter (acts : List Action) (lvl : Int) : Int :=
  acts.foldl (fun l a => match a with | Action.setValue v => v | _ => l) lvl

/-! ### The `running` flag and the SIGINT handler (source lines 66-72)

`volatile bool running = true;` and the handler
`if (signum == SIGINT) running = false;` are the only writer.  We model the
flag's value as the fold of handler invocations over the initial value. -/

def signal_handler (signum : Int) (running : Bool) : Bool :=
  if signum = SIGINT then false else running

/-- Flag value after a sequence of delivered signals, starting from the
initialization `running = true`. -/
def runningAfter (signals : List Int) : Bool :=
  signals.foldl (fun r s => signal_handler s r) true

/-! ### `set_realtime_priority` (source lines 75-84) and `main` (86-161)

`set_realtime_priority` logs a warning on failure and returns normally in
both branches.  `main` then opens the chip, requests the input line
(rising-edge events) and the output line (output direction, initial value
0); any of these throws on failure, caught at the bottom with `return 1`;
otherwise the loop runs and `main` ends with `return 0`. -/

inductive Event where
  | rtSet
  | warnRt
  | chipOpened
  | xvsRequested
  | ledRequested (initialValue : Int)
  | act (a : Action)
deriving DecidableEq, Repr

/-- Events of `set_realtime_priority`: success prints the confirmation,
failure logs the warning; both return normally. -/
def set_realtime_priority (ok : Bool) : List Event :=
  if ok then [Event.rtSet] else [Event.warnRt]

structure Env where
  /-- `gpiod::chip chip(GPIO_CHIP_NAME)` succeeds. -/
  hwChipOk : Bool
  /-- `xvs_line.request(...)` succeeds. -/
  hwXvsOk : Bool
  /-- `led_line.request(...)` succeeds. -/
  hwLedOk : Bool
  /-- `sched_setscheduler` succeeds. -/
  rtOk : Bool
  loopInputs : List LoopInput
deriving Repr

/-- The body of `main`: the event trace and the exit status.  A hardware
acquisition failure throws; the catch block reports and returns 1, so no
later step (in particular no loop action) appears in the trace. -/
def mainRun (env : Env) : List Event × Int :=
  let rtEvs := set_realtime_priority env.rtOk
  if !env.hwChipOk then
    (rtEvs, 1)
  else if !env.hwXvsOk then
    (rtEvs ++ [Event.chipOpened], 1)
  else if !env.hwLedOk then
    (rtEvs ++ [Event.chipOpened, Event.xvsRequested], 1)
  else
    (rtEvs ++ [Event.chipOpened, Event.xvsRequested, Event.ledRequested 0]
       ++ (runLoop env.loopInputs).map Event.act, 0)

/-- Whether an event is a hardware interaction (chip/line acquisition or a
loop action touching the lines). -/
def isHwEvent (e : Event) : Bool :=
  match e with
  | Event.rtSet => false
  | Event.warnRt => false
  | _ => true

/-- The whole program, config check first: the `static_assert` of lines
58-59 is evaluated at compile time, so when it fails nothing of `main`
runs (no hardware line is opened).  Embedded generically over the four
input durations, instantiated by the source at the constants. -/
def programRun (blanking rollUp totalExposure pulse : Int) (env : Env) :
    Except StartupError (List Event × Int) :=
  match mkTimingProfile blanking rollUp totalExposure pulse with
  | Except.error e => Except.error e
  | Except.ok _ => Except.ok (mainRun env)

/-- Events emitted by a whole-program run (`[]` when the configuration
check already failed and nothing runs). -/
def eventsOf (r : Except StartupError (List Event × Int)) : List Event :=
  match r with
  | Except.error _ => []
  | Except.ok (evs, _) => evs

/-- A concrete environment where all hardware acquisition succeeds. -/
def envAllOk : Env :=
  { hwChipOk := true, hwXvsOk := true, hwLedOk := true, rtOk := true,
    loopInputs := [] }

/-- A concrete environment where opening the GPIO chip fails. -/
def envChipFail : Env :=
  { hwChipOk := false, hwXvsOk := true, hwLedOk := true, rtOk := true,
    loopInputs := [⟨true, ⟨some 5, 12⟩⟩] }

/-! ### Helper lemmas -/

lemma levelAfter_append (a b : List Action) (lvl : Int) :
    levelAfter (a ++ b) lvl = levelAfter b (levelAfter a lvl) :=
  List.foldl_append _ _ a b

lemma levelAfter_cycle (inp : IterInput) : levelAfter (cycleActions inp) 0 = 0 := by
  cases h : inp.edge <;> simp [cycleActions, h, levelAfter]

lemma signal_handler_false (s : Int) : signal_handler s false = false := by
  unfold signal_handler
  split <;> rfl

lemma runningFold_false (more : List Int) :
    more.foldl (fun r s => signal_handler s r) false = false := by
  induction more with
  | nil => rfl
  | cons s rest ih => simp [List.foldl_cons, signal_handler_false, ih]

lemma runLoop_all_running (l1 rest : List LoopInput)
    (h : ∀ j ∈ l1, j.running = true) :
    runLoop (l1 ++ rest) =
      (l1.map (fun j => cycleActions j.iter)).flatten ++ runLoop rest := by
  induction l1 with
  | nil => simp
  | cons i l ih =>
      have hi : i.running = true := h i (List.mem_cons_self i l)
      have hl : ∀ j ∈ l, j.running = true := fun j hj => h j (List.mem_cons_of_mem i hj)
      simp [runLoop, hi, ih hl]

lemma runLoop_stopped (i : LoopInput) (l : List LoopInput)
    (h : i.running = false) : runLoop (i :: l) = [] := by
  simp [runLoop, h]

lemma processedEdges_all_running (l1 rest : List LoopInput)
    (h : ∀ j ∈ l1, j.running = true) :
    processedEdges (l1 ++ rest) = processedEdges l1 + processedEdges rest := by
  induction l1 with
  | nil => simp [processedEdges]
  | cons i l ih =>
      have hi : i.running = true := h i (List.mem_cons_self i l)
      have hl : ∀ j ∈ l, j.running = true := fun j hj => h j (List.mem_cons_of_mem i hj)
      simp [processedEdges, hi, ih hl]
      omega

lemma countP_setValue_cycle (v : Int) (hv : v = 0 ∨ v = 1) (inp : IterInput) :
    (cycleActions inp).countP (fun a => isSetValue v a) =
      (match inp.edge with | some _ => 1 | none => 0) := by
  rcases hv with hv | hv <;> subst hv <;>
    cases h : inp.edge <;> simp [cycleActions, h, isSetValue, List.countP_cons]

lemma countP_setValue_runLoop (v : Int) (hv : v = 0 ∨ v = 1) (l : List LoopInput) :
    (runLoop l).countP (fun a => isSetValue v a) = processedEdges l := by
  induction l with
  | nil => simp [runLoop, processedEdges]
  | cons i rest ih =>
      by_cases hi : i.running
      · simp [runLoop, processedEdges, hi, List.countP_append, ih,
          countP_setValue_cycle v hv i.iter]
      · simp [runLoop, processedEdges, hi]

/-! ### Claims -/

/-- C5: with the source's constants (`blankingTime = 284200`,
`rollUpTime = 10579100`, `totalExposureTime = 15000000`,
`pulseDuration = 50000`), the derived constants evaluate to
`windowDuration = 4420900` and `triggerDelay = 10863300`, and the
configuration check succeeds because `50000 < 4420900`. -/
theorem concrete_constants_evaluate :
    T1_VERTICAL_BLANKING_NS = 284200 ∧
    T2_ROLL_UP_TIME_NS = 10579100 ∧
    TOTAL_EXPOSURE_TIME_NS = 15000000 ∧
    FLASH_DURATION_NS = 50000 ∧
    T3_MAGIC_WINDOW_NS = 4420900 ∧
    TRIGGER_WAIT_NS = 10863300 ∧
    staticAssertCheck = true ∧
    (50000 : Int) < 4420900 ∧
    mkTimingProfile 284200 10579100 15000000 50000 =
      Except.ok
        { blankingTime := 284200, rollUpTime := 10579100,
          totalExposureTime := 15000000, pulseDuration := 50000,
          windowDuration := 4420900, triggerDelay := 10863300 } := by
  refine ⟨rfl, rfl, rfl, rfl, by decide, by decide, by decide, by decide, ?_⟩
  simp [mkTimingProfile]

/-- C4: the derived timing constants satisfy the defining equations
exactly: `windowDuration = totalExposureTime - rollUpTime` and
`triggerDelay = blankingTime + rollUpTime`, for all valid inputs with
`pulseDuration < totalExposureTime - rollUpTime` (and the source's
constants instantiate those equations). -/
theorem timing_profile_equations (blanking rollUp totalExposure pulse : Int)
    (h : pulse < totalExposure - rollUp) :
    mkTimingProfile blanking rollUp totalExposure pulse =
      Except.ok
        { blankingTime := blanking, rollUpTime := rollUp,
          totalExposureTime := totalExposure, pulseDuration := pulse,
          windowDuration := totalExposure - rollUp,
          triggerDelay := blanking + rollUp } ∧
    T3_MAGIC_WINDOW_NS = TOTAL_EXPOSURE_TIME_NS - T2_ROLL_UP_TIME_NS ∧
    TRIGGER_WAIT_NS = T1_VERTICAL_BLANKING_NS + T2_ROLL_UP_TIME_NS := by
  refine ⟨?_, rfl, rfl⟩
  simp [mkTimingProfile, h]

/-- Witness for C4 at the source's concrete constants. -/
theorem timing_profile_equations_witness :
    (50000 : Int) < 15000000 - 10579100 ∧
    mkTimingProfile 284200 10579100 15000000 50000 =
      Except.ok
        { blankingTime := 284200, rollUpTime := 10579100,
          totalExposureTime := 15000000, pulseDuration := 50000,
          windowDuration := 15000000 - 10579100,
          triggerDelay := 284200 + 10579100 } :=
  ⟨by decide,
   (timing_profile_equations 284200 10579100 15000000 50000 (by decide)).1⟩

/-- C1: if `pulseDuration ≥ windowDuration`, the configuration check fails
with `ConfigurationError` before anything runs — the whole-program run
emits no events, so no hardware line is opened; if
`pulseDuration < windowDuration` the check passes and no error is
raised. -/
theorem config_check_fail_fast (blanking rollUp totalExposure pulse : Int)
    (env : Env) :
    (totalExposure - rollUp ≤ pulse →
      programRun blanking rollUp totalExposure pulse env =
        Except.error StartupError.ConfigurationError ∧
      eventsOf (programRun blanking rollUp totalExposure pulse env) = []) ∧
    (pulse < totalExposure - rollUp →
      programRun blanking rollUp totalExposure pulse env =
        Except.ok (mainRun env)) := by
  constructor
  · intro h
    have hlt : ¬ pulse < totalExposure - rollUp := not_lt.mpr h
    constructor
    · simp [programRun, mkTimingProfile, hlt]
    · simp [programRun, mkTimingProfile, hlt, eventsOf]
  · intro h
    simp [programRun, mkTimingProfile, h]

/-- Witness for C1: a violating input fails with no events, and the
source's constants pass. -/
theorem config_check_fail_fast_witness :
    ((15000000 : Int) - 10579100 ≤ 5000000 →
      programRun 284200 10579100 15000000 5000000
          { hwChipOk := true, hwXvsOk := true, hwLedOk := true,
            rtOk := true, loopInputs := [] } =
        Except.error StartupError.ConfigurationError ∧
      eventsOf (programRun 284200 10579100 15000000 5000000
          { hwChipOk := true, hwXvsOk := true, hwLedOk := true,
            rtOk := true, loopInputs := [] }) = []) ∧
    ((50000 : Int) < 15000000 - 10579100 →
      programRun 284200 10579100 15000000 50000
          { hwChipOk := true, hwXvsOk := true, hwLedOk := true,
            rtOk := true, loopInputs := [] } =
        Except.ok (mainRun
          { hwChipOk := true, hwXvsOk := true, hwLedOk := true,
            rtOk := true, loopInputs := [] })) :=
  ⟨fun _ => (config_check_fail_fast 284200 10579100 15000000 5000000 _).1
      (by decide),
   fun _ => (config_check_fail_fast 284200 10579100 15000000 50000 _).2
      (by decide)⟩

/-- C2: the dead-time wait is a busy-wait on the clock that exits only when
`now - t0 ≥ TRIGGER_WAIT_NS`: every poll before the exit index still
satisfies `now - t0 < TRIGGER_WAIT_NS`, and the output-high instant (the
clock value at exit) is never earlier than `t0 + TRIGGER_WAIT_NS`. -/
theorem spin_wait_never_early (clock : Nat → Int) (t0 : Int)
    (h : ∃ n, spinDone clock t0 TRIGGER_WAIT_NS n) :
    t0 + TRIGGER_WAIT_NS ≤ outputHighTime clock t0 TRIGGER_WAIT_NS h ∧
    ∀ m < spinWaitExit clock t0 TRIGGER_WAIT_NS h,
      clock m - t0 < TRIGGER_WAIT_NS := by
  constructor
  · have hspec := Nat.find_spec h
    unfold spinDone at hspec
    unfold outputHighTime spinWaitExit
    linarith
  · intro m hm
    have hmin := Nat.find_min h hm
    unfold spinDone at hmin
    linarith [not_le.mp hmin]

/-- Witness for C2 on a concrete linear clock. -/
theorem spin_wait_never_early_witness :
    (0 : Int) + TRIGGER_WAIT_NS ≤
      outputHighTime (fun k => (k : Int) * 10863300) 0 TRIGGER_WAIT_NS
        ⟨1, by decide⟩ :=
  (spin_wait_never_early (fun k => (k : Int) * 10863300) 0 ⟨1, by decide⟩).1

/-- C3: a processed edge's cycle performs, in order, the event drain, the
timestamp capture, the busy wait, output high, a hold of exactly
`FLASH_DURATION_NS`, output low; and over any run the output goes high
(and low) exactly once per processed edge. -/
theorem cycle_actuation_per_edge (l : List LoopInput) (inp : IterInput)
    (t0 : Int) (h : inp.edge = some t0) :
    cycleActions inp =
      [Action.eventWait true, Action.eventRead, Action.captureTime t0,
       Action.spinUntil inp.tHigh, Action.setValue 1,
       Action.sleepFor FLASH_DURATION_NS, Action.setValue 0] ∧
    (runLoop l).countP (fun a => isSetValue 1 a) = processedEdges l ∧
    (runLoop l).countP (fun a => isSetValue 0 a) = processedEdges l :=
  ⟨by simp [cycleActions, h],
   countP_setValue_runLoop 1 (Or.inr rfl) l,
   countP_setValue_runLoop 0 (Or.inl rfl) l⟩

/-- Witness for C3 on a concrete run of one edge cycle and one timeout. -/
theorem cycle_actuation_per_edge_witness :
    cycleActions ⟨some 5, 12⟩ =
      [Action.eventWait true, Action.eventRead, Action.captureTime 5,
       Action.spinUntil 12, Action.setValue 1,
       Action.sleepFor FLASH_DURATION_NS, Action.setValue 0] ∧
    (runLoop [⟨true, ⟨some 5, 12⟩⟩, ⟨true, ⟨none, 0⟩⟩]).countP
        (fun a => isSetValue 1 a) =
      processedEdges [⟨true, ⟨some 5, 12⟩⟩, ⟨true, ⟨none, 0⟩⟩] :=
  ⟨(cycle_actuation_per_edge [] ⟨some 5, 12⟩ 5 rfl).1,
   (cycle_actuation_per_edge [⟨true, ⟨some 5, 12⟩⟩, ⟨true, ⟨none, 0⟩⟩]
      ⟨some 5, 12⟩ 5 rfl).2.1⟩

/-- C6: the `running` flag is read once at the top of each iteration; once
an iteration reads it false, no further iteration runs (no further edge is
processed), while every iteration that had already passed the read emits
its full cycle; on the normal path `main` returns exit status 0. -/
theorem cancellation_at_cycle_top (l1 l2 : List LoopInput) (i : LoopInput)
    (env : Env) (h1 : ∀ j ∈ l1, j.running = true) (h2 : i.running = false)
    (hc : env.hwChipOk = true) (hx : env.hwXvsOk = true)
    (hl : env.hwLedOk = true) :
    runLoop (l1 ++ i :: l2) =
      (l1.map (fun j => cycleActions j.iter)).flatten ∧
    processedEdges (l1 ++ i :: l2) = processedEdges l1 ∧
    (mainRun env).2 = 0 := by
  refine ⟨?_, ?_, ?_⟩
  · rw [runLoop_all_running l1 (i :: l2) h1, runLoop_stopped i l2 h2,
      List.append_nil]
  · rw [processedEdges_all_running l1 (i :: l2) h1]
    simp [processedEdges, h2]
  · simp [mainRun, hc, hx, hl]

/-- Witness for C6: one completed edge cycle, then cancellation; the later
edge is never processed. -/
theorem cancellation_at_cycle_top_witness :
    runLoop ([⟨true, ⟨some 4, 11⟩⟩] ++ ⟨false, ⟨some 5, 12⟩⟩ ::
        [⟨true, ⟨some 6, 13⟩⟩]) =
      ([(⟨true, ⟨some 4, 11⟩⟩ : LoopInput)].map
        (fun j => cycleActions j.iter)).flatten ∧
    (mainRun envAllOk).2 = 0 :=
  ⟨(cancellation_at_cycle_top [⟨true, ⟨some 4, 11⟩⟩] [⟨true, ⟨some 6, 13⟩⟩]
      ⟨false, ⟨some 5, 12⟩⟩ envAllOk (by decide) rfl rfl rfl rfl).1,
   (cancellation_at_cycle_top [] [] ⟨false, ⟨some 5, 12⟩⟩ envAllOk
      (by decide) rfl rfl rfl rfl).2.2⟩

/-- C7: `running` starts true, its only writer is the SIGINT handler which
only ever assigns false (never true), and once false it never becomes true
again under any further signals. -/
theorem running_flag_monotone :
    runningAfter [] = true ∧
    (∀ s r, signal_handler s r = true → r = true) ∧
    (∀ r, signal_handler SIGINT r = false) ∧
    (∀ sigs more, runningAfter sigs = false →
      runningAfter (sigs ++ more) = false) := by
  refine ⟨rfl, ?_, ?_, ?_⟩
  · intro s r h
    unfold signal_handler at h
    split at h
    · exact absurd h (by simp)
    · exact h
  · intro r
    simp [signal_handler]
  · intro sigs more h
    unfold runningAfter at h ⊢
    rw [List.foldl_append, h, runningFold_false]

/-- Witness for C7: after SIGINT the flag is false and stays false. -/
theorem running_flag_monotone_witness :
    runningAfter [2] = false ∧ runningAfter ([2] ++ [7]) = false :=
  ⟨by decide, running_flag_monotone.2.2.2 [2] [7] (by decide)⟩

/-- C8: a hardware-line acquisition failure is fatal without retry: `main`
returns exit status 1 and no trigger-loop action appears in the trace. -/
theorem port_failure_fatal (env : Env)
    (h : env.hwChipOk = false ∨ env.hwXvsOk = false ∨ env.hwLedOk = false) :
    (mainRun env).2 = 1 ∧ ∀ a, Event.act a ∉ (mainRun env).1 := by
  cases hc : env.hwChipOk <;> cases hx : env.hwXvsOk <;>
    cases hl : env.hwLedOk <;> cases hr : env.rtOk <;>
    simp_all [mainRun, set_realtime_priority]

/-- Witness for C8: a failed chip open exits 1 with no loop action. -/
theorem port_failure_fatal_witness :
    (mainRun envChipFail).2 = 1 ∧
    Event.act (Action.setValue 1) ∉ (mainRun envChipFail).1 :=
  ⟨(port_failure_fatal _ (Or.inl rfl)).1,
   (port_failure_fatal _ (Or.inl rfl)).2 (Action.setValue 1)⟩

/-- C9: failure to obtain real-time priority is non-fatal:
`set_realtime_priority` returns normally with only a warning logged, and
the rest of the run — exit status and every hardware-visible event,
trigger loop included — is identical to the success case. -/
theorem realtime_failure_nonfatal (env : Env) :
    set_realtime_priority false = [Event.warnRt] ∧
    set_realtime_priority true = [Event.rtSet] ∧
    (mainRun { env with rtOk := false }).2 =
      (mainRun { env with rtOk := true }).2 ∧
    (mainRun { env with rtOk := false }).1.filter isHwEvent =
      (mainRun { env with rtOk := true }).1.filter isHwEvent := by
  refine ⟨rfl, rfl, ?_, ?_⟩ <;>
    cases hc : env.hwChipOk <;> cases hx : env.hwXvsOk <;>
      cases hl : env.hwLedOk <;>
      simp [mainRun, hc, hx, hl, set_realtime_priority, isHwEvent,
        List.filter_append]

/-- C10: the output line is requested with initial level 0, every cycle
returns the level to 0, at every return to the top of the loop (the
WaitingForEdge point) the level is 0, and within an edge cycle the level
is 1 exactly between the `set_value(1)` and `set_value(0)` calls. -/
theorem output_low_when_waiting :
    (∀ env : Env, ∀ v : Int,
      Event.ledRequested v ∈ (mainRun env).1 → v = 0) ∧
    (∀ inp, levelAfter (cycleActions inp) 0 = 0) ∧
    (∀ l : List LoopInput, ∀ n, levelAfter (runLoop (l.take n)) 0 = 0) ∧
    (∀ inp : IterInput, ∀ t0, inp.edge = some t0 →
      (List.range (cycleActions inp).length).map
          (fun k => levelAfter ((cycleActions inp).take (k + 1)) 0) =
        [0, 0, 0, 0, 1, 1, 0]) := by
  refine ⟨?_, levelAfter_cycle, ?_, ?_⟩
  · intro env v hv
    cases hc : env.hwChipOk <;> cases hx : env.hwXvsOk <;>
      cases hl : env.hwLedOk <;> cases hr : env.rtOk <;>
      simp_all [mainRun, set_realtime_priority]
  · intro l
    induction l with
    | nil => intro n; cases n <;> rfl
    | cons i rest ih =>
        intro n
        cases n with
        | zero => rfl
        | succ m =>
            by_cases hi : i.running
            · simp [List.take_succ_cons, runLoop, hi, levelAfter_append,
                levelAfter_cycle, ih m]
            · simp [List.take_succ_cons, runLoop, hi, levelAfter]
  · intro inp t0 h
    have hcy : cycleActions inp =
        [Action.eventWait true, Action.eventRead, Action.captureTime t0,
         Action.spinUntil inp.tHigh, Action.setValue 1,
         Action.sleepFor FLASH_DURATION_NS, Action.setValue 0] := by
      simp [cycleActions, h]
    rw [hcy]
    rfl

/-- Witness for C10: the concrete level profile of one edge cycle, and the
level at a loop-top after that cycle. -/
theorem output_low_when_waiting_witness :
    levelAfter (runLoop ([⟨true, ⟨some 3, 9⟩⟩, ⟨false, ⟨none, 0⟩⟩].take 2)) 0
        = 0 ∧
    (List.range (cycleActions ⟨some 3, 9⟩).length).map
        (fun k => levelAfter ((cycleActions ⟨some 3, 9⟩).take (k + 1)) 0) =
      [0, 0, 0, 0, 1, 1, 0] :=
  ⟨output_low_when_waiting.2.2.1 [⟨true, ⟨some 3, 9⟩⟩, ⟨false, ⟨none, 0⟩⟩] 2,
   output_low_when_waiting.2.2.2 ⟨some 3, 9⟩ 3 rfl⟩

end RollingShutter
